import Mathlib

/-!
Shallow embedding of the `oidc` package of janivihervas/oidc-go (the OIDC
discovery client), of the program entry point `cmd/jwt-auth-proxy/main.go`,
and of the login-flow callback handler described by the specification.

Go `error` results are modelled as `Option` of an error constructor
(`none` = `nil`). A `nil` slice and an empty slice both decode to a `List`
of length 0, matching `len(s) == 0` in Go. The `*bool` field
`RequestURIParameterSupported` is modelled as `Option Bool`
(`none` = `nil` pointer).
-/

namespace Oidc

/-- Configuration for connecting to an OIDC provider; one field per field of
the Go struct `Configuration`, in source order. Field defaults are the Go
zero values, so `{}` is the zero `Configuration` that
`GetOpenIDConnectConfiguration` declares as its named return value. -/
structure Configuration where
  Issuer : String := ""
  AuthorizationEndpoint : String := ""
  TokenEndpoint : String := ""
  UserInfoEndpoint : String := ""
  JWKSURI : String := ""
  RegistrationEndpoint : String := ""
  ScopesSupported : List String := []
  ResponseTypesSupported : List String := []
  ResponseModesSupported : List String := []
  GrantTypesSupported : List String := []
  ACRValuesSupported : List String := []
  SubjectTypesSupported : List String := []
  IDTokenSigningAlgValuesSupported : List String := []
  IDTokenEncryptionEncValuesSupported : List String := []
  UserInfoSigningAlgValuesSupported : List String := []
  UserInfoEncryptionAlgValuesSupported : List String := []
  UserInfoEncryptionEncValuesSupported : List String := []
  RequestObjectSigningAlgValuesSupported : List String := []
  RequestObjectEncryptionAlgValuesSupported : List String := []
  RequestObjectEncryptionEncValuesSupported : List String := []
  TokenEndpointAuthMethodsSupported : List String := []
  TokenEndpointAuthSigningAlgValuesSupported : List String := []
  DisplayValuesSupported : List String := []
  ClaimTypesSupported : List String := []
  ClaimsSupported : List String := []
  ServiceDocumentation : String := ""
  ClaimsLocalesSupported : List String := []
  UILocalesSupported : List String := []
  ClaimsParameterSupported : Bool := false
  RequestParameterSupported : Bool := false
  RequestURIParameterSupported : Option Bool := none
  RequireRequestURIRegistration : Bool := false
  OpPolicyURI : String := ""
  OpTOSURI : String := ""
  deriving Repr, DecidableEq

/-- The Go zero value of `Configuration` (every field at its zero value). -/
def zeroConfiguration : Configuration := {}

/-- Valid checks that all the fields marked as required are present;
`none` models a `nil` error, `some msg` models `errors.New(msg)`. -/
def Configuration.Valid (config : Configuration) : Option String :=
  if config.Issuer = "" then
    some "authproxy/oidc: issuer is empty"
  else if config.AuthorizationEndpoint = "" then
    some "authproxy/oidc: authorization_endpoint is empty"
  else if config.JWKSURI = "" then
    some "authproxy/oidc: jwks_uri is empty"
  else if config.ResponseTypesSupported.length = 0 then
    some "authproxy/oidc: response_types_supported is empty"
  else if config.SubjectTypesSupported.length = 0 then
    some "authproxy/oidc: subject_types_supported is empty"
  else if config.IDTokenSigningAlgValuesSupported.length = 0 then
    some "authproxy/oidc: id_token_signing_alg_values_supported is empty"
  else
    none

/-- FillDefaultValuesIfEmpty, functional rendering of the Go method that
mutates its receiver: returns the updated configuration. -/
def Configuration.FillDefaultValuesIfEmpty (config : Configuration) : Configuration :=
  { config with
    ResponseModesSupported :=
      if config.ResponseModesSupported.length = 0 then
        ["query", "fragment"]
      else config.ResponseModesSupported
    GrantTypesSupported :=
      if config.GrantTypesSupported.length = 0 then
        ["authorization_code", "implicit"]
      else config.GrantTypesSupported
    TokenEndpointAuthMethodsSupported :=
      if config.TokenEndpointAuthMethodsSupported.length = 0 then
        ["client_secret_basic"]
      else config.TokenEndpointAuthMethodsSupported
    RequestURIParameterSupported :=
      if config.RequestURIParameterSupported = none then
        some true
      else config.RequestURIParameterSupported }

/-- Error values produced by `GetOpenIDConnectConfiguration`, one constructor
per distinct `return config, err` site in the Go function. -/
inductive DiscError where
  | requestCreationFailed
  | httpRequestFailed
  | bodyCloseFailed
  | non200Status (code : Nat)
  | decodeFailed
  deriving Repr, DecidableEq

/-- An HTTP client value; `none` at the call site models a `nil *http.Client`. -/
structure HTTPClient where
  id : Nat
  deriving Repr, DecidableEq

/-- The process-wide `http.DefaultClient`. -/
def DefaultClient : HTTPClient := { id := 0 }

/-- Outcome of reading one HTTP response: its status code, the result of
JSON-decoding its body into a `Configuration` (`none` = undecodable), and
whether `Body.Close()` succeeds. -/
structure HTTPResponse where
  statusCode : Nat
  body : Option Configuration
  closeOk : Bool
  deriving Repr, DecidableEq

/-- Result of `client.Do(req)`: a transport failure or a response. -/
inductive DoOutcome where
  | failure
  | success (resp : HTTPResponse)
  deriving Repr, DecidableEq

/-- Environment of one discovery fetch: whether `http.NewRequest` succeeds
for the given url, and what `client.Do` yields for each client. -/
structure FetchEnv where
  newRequestOk : Bool
  doResult : HTTPClient → DoOutcome

/-- Modelled from the spec: the caller-supplied `context.Context`, reduced to
whether it has been cancelled or timed out ("all are bounded by a
caller-supplied timeout/cancellation signal"). -/
inductive Context where
  | live
  | cancelled
  deriving Repr, DecidableEq

/-- Modelled from the spec: `client.Do` on a request carrying a cancelled or
timed-out context abandons the in-flight exchange and fails ("on cancellation
or timeout the in-flight exchange is abandoned and treated as a transport
failure"); on a live context it behaves as the environment dictates. -/
def clientDo (ctx : Context) (env : FetchEnv) (client : HTTPClient) : DoOutcome :=
  match ctx with
  | Context.cancelled => DoOutcome.failure
  | Context.live => env.doResult client

/-- The deferred `resp.Body.Close()` of the Go function: it runs after the
named return values are set, and on failure overwrites the named `err`
(leaving the named `config` untouched). -/
def applyDeferredClose (resp : HTTPResponse) (result : Configuration × Option DiscError) :
    Configuration × Option DiscError :=
  if resp.closeOk then result else (result.1, some DiscError.bodyCloseFailed)

/-- The `if client == nil { client = http.DefaultClient }` substitution at
the top of `GetOpenIDConnectConfiguration`. -/
def effectiveClient (client : Option HTTPClient) : HTTPClient :=
  match client with
  | none => DefaultClient
  | some c => c

/-- GetOpenIDConnectConfiguration from a well-known url, over the fetch
environment. Returns the Go pair `(config, err)`. Control flow follows the
source line by line: nil-client substitution, `http.NewRequest`, `client.Do`
(context-aware), deferred body close, non-200 check, JSON decode,
`FillDefaultValuesIfEmpty`. On the decode-failure path the Go function
returns whatever the decoder left in `config`; the model returns the zero
value (the body is modelled only as decodable-or-not). -/
def GetOpenIDConnectConfiguration (ctx : Context) (client : Option HTTPClient)
    (env : FetchEnv) : Configuration × Option DiscError :=
  let c := effectiveClient client
  if env.newRequestOk = false then
    (zeroConfiguration, some DiscError.requestCreationFailed)
  else
    match clientDo ctx env c with
    | DoOutcome.failure => (zeroConfiguration, some DiscError.httpRequestFailed)
    | DoOutcome.success resp =>
      applyDeferredClose resp
        (if resp.statusCode ≠ 200 then
          (zeroConfiguration, some (DiscError.non200Status resp.statusCode))
        else
          match resp.body with
          | none => (zeroConfiguration, some DiscError.decodeFailed)
          | some config => (config.FillDefaultValuesIfEmpty, none))

/-- A fetch environment in which `http.NewRequest` succeeds and `client.Do`
yields the given response for every client. -/
def netAlways (resp : HTTPResponse) : FetchEnv :=
  { newRequestOk := true, doResult := fun _ => DoOutcome.success resp }

/-- A 200 response whose body decodes to the zero `Configuration` (every
required field missing) and whose close succeeds. -/
def respEmptyDoc : HTTPResponse :=
  { statusCode := 200, body := some zeroConfiguration, closeOk := true }

/-- A 200 response with a decodable body whose `Body.Close()` fails. -/
def respCloseFail : HTTPResponse :=
  { statusCode := 200, body := some zeroConfiguration, closeOk := false }

/-- A fully-populated discovery document, as a decoded body. -/
def cfgDoc : Configuration :=
  { Issuer := "https://issuer.example"
    AuthorizationEndpoint := "https://issuer.example/authorize"
    JWKSURI := "https://issuer.example/jwks"
    ResponseTypesSupported := ["code"]
    SubjectTypesSupported := ["public"]
    IDTokenSigningAlgValuesSupported := ["RS256"] }

/-- `cfgDoc` with a token endpoint added; used to compare `Valid` verdicts of
configurations differing only in a non-required field. -/
def cfgDocWithToken : Configuration :=
  { cfgDoc with TokenEndpoint := "https://issuer.example/token" }

/-- A 200 response whose body decodes to `cfgDoc`, close succeeding. -/
def respGoodDoc : HTTPResponse :=
  { statusCode := 200, body := some cfgDoc, closeOk := true }

end Oidc

namespace AuthProxyMain

/-- The actions `main` of `cmd/jwt-auth-proxy/main.go` could take at startup:
fetching the provider discovery configuration, or serving HTTP traffic. -/
inductive StartupStep where
  | fetchDiscoveryConfiguration
  | runHTTPServer
  deriving Repr, DecidableEq

/-- The startup sequence of `main`: it reads PORT and calls
`server.RunHTTP(os.Getenv("PORT"), upstream.Echo{})` — nothing else; the
middleware and OIDC wiring in the function body is commented out, so no
discovery fetch occurs. -/
def mainSteps : List StartupStep := [StartupStep.runHTTPServer]

end AuthProxyMain

namespace LoginFlow

/-- Modelled from the spec: the per-browser session carried across the login
flow (tokens, expiry, the single-use `state`, and the preserved original
URL); the callback-handling code is not among the source files. -/
structure Session where
  accessToken : Option String := none
  refreshToken : Option String := none
  accessTokenExpiry : Option Nat := none
  state : Option String := none
  originalURL : Option String := none
  deriving Repr, DecidableEq

/-- Modelled from the spec: the `code`, `state` and `error` query parameters
the provider's redirect carries to the callback endpoint. -/
structure CallbackParams where
  code : Option String := none
  state : Option String := none
  errorParam : Option String := none
  deriving Repr, DecidableEq

/-- Modelled from the spec: the token set a successful authorization-code
exchange yields. -/
structure TokenSet where
  accessToken : String
  refreshToken : Option String
  accessTokenExpiry : Nat
  deriving Repr, DecidableEq

/-- Modelled from the spec: the callback handler's response — the generic,
non-descriptive error (covering both an `error` parameter and a `state`
mismatch, never revealing which check failed), an exchange failure, or the
post-login redirect. -/
inductive CallbackResult where
  | genericError
  | exchangeFailed
  | redirect (target : String)
  deriving Repr, DecidableEq

/-- Modelled from the spec: exact `state` comparison with absence of either
side treated as a mismatch. -/
def stateMatches (sessionState paramState : Option String) : Bool :=
  match sessionState, paramState with
  | some s, some p => s = p
  | _, _ => false

/-- Modelled from the spec: the callback phase of the Login Flow Controller
(§4.2), which is not among the source files. If `error` is present or the
`state` does not match, respond with the generic error and leave the session
unchanged; otherwise exchange the code (the `exchange` argument models the
token-endpoint round trip); on success store the tokens, clear `state`,
consume `originalURL` and redirect there (or to the root). -/
def handleCallback (exchange : String → Option TokenSet) (session : Session)
    (params : CallbackParams) : Session × CallbackResult :=
  if params.errorParam.isSome ∨ ¬ stateMatches session.state params.state then
    (session, CallbackResult.genericError)
  else
    match params.code with
    | none => (session, CallbackResult.exchangeFailed)
    | some code =>
      match exchange code with
      | none => (session, CallbackResult.exchangeFailed)
      | some tokens =>
        ({ session with
            accessToken := some tokens.accessToken
            refreshToken := tokens.refreshToken
            accessTokenExpiry := some tokens.accessTokenExpiry
            state := none
            originalURL := none },
         CallbackResult.redirect (session.originalURL.getD "/"))

/-- A concrete exchange function: only the code "code1" exchanges. -/
def exchangeOnlyCode1 : String → Option TokenSet := fun code =>
  if code = "code1" then
    some { accessToken := "at1", refreshToken := some "rt1", accessTokenExpiry := 100 }
  else none

/-- A session awaiting its callback with state "xyz" and a stored URL. -/
def sessionAwaiting : Session :=
  { state := some "xyz", originalURL := some "/foo/bar?x=1" }

/-- The correct callback payload for `sessionAwaiting`. -/
def paramsCorrect : CallbackParams :=
  { code := some "code1", state := some "xyz" }

/-- The session `handleCallback` produces from `sessionAwaiting` on the
correct payload: tokens stored, `state` and `originalURL` cleared. -/
def sessionAfter : Session :=
  { accessToken := some "at1", refreshToken := some "rt1", accessTokenExpiry := some 100 }

/-- A `state` stored as `none` matches no callback `state` parameter. -/
theorem stateMatches_none (x : Option String) : stateMatches none x = false := by
  cases x <;> rfl

end LoginFlow

/-- C10: calling GetOpenIDConnectConfiguration with a nil HTTP client is
safe: the nil client is replaced by the default client before any use, so
for every context and fetch environment the behaviour with a nil client
equals the behaviour with `http.DefaultClient`. -/
theorem C10_nil_client_uses_default :
    ∀ (ctx : Oidc.Context) (env : Oidc.FetchEnv),
      Oidc.GetOpenIDConnectConfiguration ctx none env =
        Oidc.GetOpenIDConnectConfiguration ctx (some Oidc.DefaultClient) env := by
  intro ctx env
  rfl

/-- C6: with a cancelled (or timed-out) context, `client.Do` abandons the
in-flight request, and GetOpenIDConnectConfiguration returns the transport
failure error with the zero Configuration — no partially applied data. -/
theorem C6_cancelled_context_transport_failure :
    ∀ (client : Option Oidc.HTTPClient) (env : Oidc.FetchEnv),
      env.newRequestOk = true →
      Oidc.clientDo Oidc.Context.cancelled env (Oidc.effectiveClient client) =
        Oidc.DoOutcome.failure ∧
      Oidc.GetOpenIDConnectConfiguration Oidc.Context.cancelled client env =
        (Oidc.zeroConfiguration, some Oidc.DiscError.httpRequestFailed) := by
  intro client env h
  refine ⟨rfl, ?_⟩
  simp [Oidc.GetOpenIDConnectConfiguration, Oidc.clientDo, h]

/-- Witness for C6 at a concrete environment. -/
theorem C6_witness :
    (Oidc.netAlways Oidc.respGoodDoc).newRequestOk = true ∧
    Oidc.GetOpenIDConnectConfiguration Oidc.Context.cancelled none
      (Oidc.netAlways Oidc.respGoodDoc) =
      (Oidc.zeroConfiguration, some Oidc.DiscError.httpRequestFailed) :=
  ⟨rfl, (C6_cancelled_context_transport_failure none (Oidc.netAlways Oidc.respGoodDoc) rfl).2⟩

/-- C8: FillDefaultValuesIfEmpty is idempotent — applying it twice yields
exactly the configuration obtained by applying it once. -/
theorem C8_fill_idempotent :
    ∀ cfg : Oidc.Configuration,
      (cfg.FillDefaultValuesIfEmpty).FillDefaultValuesIfEmpty = cfg.FillDefaultValuesIfEmpty := by
  intro cfg
  simp only [Oidc.Configuration.FillDefaultValuesIfEmpty]
  split_ifs <;> simp_all

/-- C9: FillDefaultValuesIfEmpty modifies only the four defaultable fields;
every other field of the Configuration is unchanged, and the verdict of
`Valid` is the same before and after the call. -/
theorem C9_fill_frame_and_valid_preserved :
    ∀ cfg : Oidc.Configuration,
      ((cfg.FillDefaultValuesIfEmpty).Issuer = cfg.Issuer ∧
       (cfg.FillDefaultValuesIfEmpty).AuthorizationEndpoint = cfg.AuthorizationEndpoint ∧
       (cfg.FillDefaultValuesIfEmpty).TokenEndpoint = cfg.TokenEndpoint ∧
       (cfg.FillDefaultValuesIfEmpty).UserInfoEndpoint = cfg.UserInfoEndpoint ∧
       (cfg.FillDefaultValuesIfEmpty).JWKSURI = cfg.JWKSURI ∧
       (cfg.FillDefaultValuesIfEmpty).RegistrationEndpoint = cfg.RegistrationEndpoint ∧
       (cfg.FillDefaultValuesIfEmpty).ScopesSupported = cfg.ScopesSupported ∧
       (cfg.FillDefaultValuesIfEmpty).ResponseTypesSupported = cfg.ResponseTypesSupported ∧
       (cfg.FillDefaultValuesIfEmpty).ACRValuesSupported = cfg.ACRValuesSupported ∧
       (cfg.FillDefaultValuesIfEmpty).SubjectTypesSupported = cfg.SubjectTypesSupported ∧
       (cfg.FillDefaultValuesIfEmpty).IDTokenSigningAlgValuesSupported =
         cfg.IDTokenSigningAlgValuesSupported ∧
       (cfg.FillDefaultValuesIfEmpty).IDTokenEncryptionEncValuesSupported =
         cfg.IDTokenEncryptionEncValuesSupported ∧
       (cfg.FillDefaultValuesIfEmpty).UserInfoSigningAlgValuesSupported =
         cfg.UserInfoSigningAlgValuesSupported ∧
       (cfg.FillDefaultValuesIfEmpty).UserInfoEncryptionAlgValuesSupported =
         cfg.UserInfoEncryptionAlgValuesSupported ∧
       (cfg.FillDefaultValuesIfEmpty).UserInfoEncryptionEncValuesSupported =
         cfg.UserInfoEncryptionEncValuesSupported ∧
       (cfg.FillDefaultValuesIfEmpty).RequestObjectSigningAlgValuesSupported =
         cfg.RequestObjectSigningAlgValuesSupported ∧
       (cfg.FillDefaultValuesIfEmpty).RequestObjectEncryptionAlgValuesSupported =
         cfg.RequestObjectEncryptionAlgValuesSupported ∧
       (cfg.FillDefaultValuesIfEmpty).RequestObjectEncryptionEncValuesSupported =
         cfg.RequestObjectEncryptionEncValuesSupported ∧
       (cfg.FillDefaultValuesIfEmpty).TokenEndpointAuthSigningAlgValuesSupported =
         cfg.TokenEndpointAuthSigningAlgValuesSupported ∧
       (cfg.FillDefaultValuesIfEmpty).DisplayValuesSupported = cfg.DisplayValuesSupported ∧
       (cfg.FillDefaultValuesIfEmpty).ClaimTypesSupported = cfg.ClaimTypesSupported ∧
       (cfg.FillDefaultValuesIfEmpty).ClaimsSupported = cfg.ClaimsSupported ∧
       (cfg.FillDefaultValuesIfEmpty).ServiceDocumentation = cfg.ServiceDocumentation ∧
       (cfg.FillDefaultValuesIfEmpty).ClaimsLocalesSupported = cfg.ClaimsLocalesSupported ∧
       (cfg.FillDefaultValuesIfEmpty).UILocalesSupported = cfg.UILocalesSupported ∧
       (cfg.FillDefaultValuesIfEmpty).ClaimsParameterSupported = cfg.ClaimsParameterSupported ∧
       (cfg.FillDefaultValuesIfEmpty).RequestParameterSupported = cfg.RequestParameterSupported ∧
       (cfg.FillDefaultValuesIfEmpty).RequireRequestURIRegistration =
         cfg.RequireRequestURIRegistration ∧
       (cfg.FillDefaultValuesIfEmpty).OpPolicyURI = cfg.OpPolicyURI ∧
       (cfg.FillDefaultValuesIfEmpty).OpTOSURI = cfg.OpTOSURI) ∧
      (cfg.FillDefaultValuesIfEmpty).Valid = cfg.Valid := by
  intro cfg
  exact ⟨⟨rfl, rfl, rfl, rfl, rfl, rfl, rfl, rfl, rfl, rfl, rfl, rfl, rfl, rfl, rfl,
          rfl, rfl, rfl, rfl, rfl, rfl, rfl, rfl, rfl, rfl, rfl, rfl, rfl, rfl, rfl⟩, rfl⟩

/-- C5: `Valid` returns nil exactly when the six required fields are
present (three non-empty strings, three non-empty lists), and no other
field affects the verdict: two configurations agreeing on the six required
fields get the same verdict. -/
theorem C5_valid_characterization :
    ∀ cfg : Oidc.Configuration,
      (cfg.Valid = none ↔
        (cfg.Issuer ≠ "" ∧ cfg.AuthorizationEndpoint ≠ "" ∧ cfg.JWKSURI ≠ "" ∧
         cfg.ResponseTypesSupported ≠ [] ∧ cfg.SubjectTypesSupported ≠ [] ∧
         cfg.IDTokenSigningAlgValuesSupported ≠ [])) ∧
      ∀ cfg2 : Oidc.Configuration,
        cfg.Issuer = cfg2.Issuer →
        cfg.AuthorizationEndpoint = cfg2.AuthorizationEndpoint →
        cfg.JWKSURI = cfg2.JWKSURI →
        cfg.ResponseTypesSupported = cfg2.ResponseTypesSupported →
        cfg.SubjectTypesSupported = cfg2.SubjectTypesSupported →
        cfg.IDTokenSigningAlgValuesSupported = cfg2.IDTokenSigningAlgValuesSupported →
        cfg.Valid = cfg2.Valid := by
  intro cfg
  constructor
  · unfold Oidc.Configuration.Valid
    split_ifs with h1 h2 h3 h4 h5 h6 <;> simp_all [List.length_eq_zero]
  · intro cfg2 h1 h2 h3 h4 h5 h6
    unfold Oidc.Configuration.Valid
    rw [h1, h2, h3, h4, h5, h6]

/-- Witness for C5: a valid document, and one differing only in
`TokenEndpoint`, get the same (nil) verdict. -/
theorem C5_witness :
    Oidc.cfgDoc.Valid = Oidc.cfgDocWithToken.Valid ∧ Oidc.cfgDoc.Valid = none :=
  ⟨(C5_valid_characterization Oidc.cfgDoc).2 Oidc.cfgDocWithToken rfl rfl rfl rfl rfl rfl,
   (C5_valid_characterization Oidc.cfgDoc).1.mpr (by decide)⟩

/-- After FillDefaultValuesIfEmpty the four defaultable fields are set. -/
theorem fill_fields_set (cfg : Oidc.Configuration) :
    (cfg.FillDefaultValuesIfEmpty).ResponseModesSupported ≠ [] ∧
    (cfg.FillDefaultValuesIfEmpty).GrantTypesSupported ≠ [] ∧
    (cfg.FillDefaultValuesIfEmpty).TokenEndpointAuthMethodsSupported ≠ [] ∧
    (cfg.FillDefaultValuesIfEmpty).RequestURIParameterSupported ≠ none := by
  simp only [Oidc.Configuration.FillDefaultValuesIfEmpty]
  refine ⟨?_, ?_, ?_, ?_⟩ <;> (split_ifs <;> simp_all [List.length_eq_zero])

/-- A successful fetch result is some decoded document with defaults
filled in. -/
theorem getOk_is_filled :
    ∀ (ctx : Oidc.Context) (client : Option Oidc.HTTPClient) (env : Oidc.FetchEnv)
      (c : Oidc.Configuration),
      Oidc.GetOpenIDConnectConfiguration ctx client env = (c, none) →
      ∃ cfg : Oidc.Configuration, c = cfg.FillDefaultValuesIfEmpty := by
  intro ctx client env c h
  simp only [Oidc.GetOpenIDConnectConfiguration] at h
  split at h
  · simp at h
  · split at h
    · simp at h
    · simp only [Oidc.applyDeferredClose] at h
      split at h
      · split at h
        · simp at h
        · split at h
          · simp at h
          · rw [Prod.mk.injEq] at h
            exact ⟨_, h.1.symm⟩
      · simp at h

/-- C4: each of the four defaultable fields is replaced exactly when empty
(or, for the pointer field, nil) in the decoded document and kept unchanged
otherwise; and a Configuration returned successfully by
GetOpenIDConnectConfiguration always has all four set. -/
theorem C4_defaults_applied :
    ∀ cfg : Oidc.Configuration,
      ((cfg.FillDefaultValuesIfEmpty).ResponseModesSupported =
         (if cfg.ResponseModesSupported.length = 0 then ["query", "fragment"]
          else cfg.ResponseModesSupported) ∧
       (cfg.FillDefaultValuesIfEmpty).GrantTypesSupported =
         (if cfg.GrantTypesSupported.length = 0 then ["authorization_code", "implicit"]
          else cfg.GrantTypesSupported) ∧
       (cfg.FillDefaultValuesIfEmpty).TokenEndpointAuthMethodsSupported =
         (if cfg.TokenEndpointAuthMethodsSupported.length = 0 then ["client_secret_basic"]
          else cfg.TokenEndpointAuthMethodsSupported) ∧
       (cfg.FillDefaultValuesIfEmpty).RequestURIParameterSupported =
         (if cfg.RequestURIParameterSupported = none then some true
          else cfg.RequestURIParameterSupported)) ∧
      ∀ (ctx : Oidc.Context) (client : Option Oidc.HTTPClient) (env : Oidc.FetchEnv)
        (c : Oidc.Configuration),
        Oidc.GetOpenIDConnectConfiguration ctx client env = (c, none) →
        c.ResponseModesSupported ≠ [] ∧ c.GrantTypesSupported ≠ [] ∧
        c.TokenEndpointAuthMethodsSupported ≠ [] ∧ c.RequestURIParameterSupported ≠ none := by
  intro cfg
  refine ⟨⟨rfl, rfl, rfl, rfl⟩, ?_⟩
  intro ctx client env c h
  obtain ⟨cfg0, rfl⟩ := getOk_is_filled ctx client env c h
  exact fill_fields_set cfg0

/-- Witness for C4: a concrete successful fetch whose result has the four
defaultable fields set. -/
theorem C4_witness :
    (Oidc.cfgDoc.FillDefaultValuesIfEmpty).ResponseModesSupported ≠ [] ∧
    (Oidc.cfgDoc.FillDefaultValuesIfEmpty).GrantTypesSupported ≠ [] ∧
    (Oidc.cfgDoc.FillDefaultValuesIfEmpty).TokenEndpointAuthMethodsSupported ≠ [] ∧
    (Oidc.cfgDoc.FillDefaultValuesIfEmpty).RequestURIParameterSupported ≠ none :=
  (C4_defaults_applied Oidc.cfgDoc).2 Oidc.Context.live none (Oidc.netAlways Oidc.respGoodDoc)
    Oidc.cfgDoc.FillDefaultValuesIfEmpty (by decide)

/-- Counterexample to C3 as stated: a fetch whose transport succeeds, whose
status is 200 and whose body decodes still returns an error, because closing
the response body fails — a failure case beyond the claimed three. -/
theorem C3_counterexample_close_failure :
    Oidc.clientDo Oidc.Context.live (Oidc.netAlways Oidc.respCloseFail)
      (Oidc.effectiveClient none) = Oidc.DoOutcome.success Oidc.respCloseFail ∧
    Oidc.respCloseFail.statusCode = 200 ∧
    Oidc.respCloseFail.body ≠ none ∧
    (Oidc.GetOpenIDConnectConfiguration Oidc.Context.live none
      (Oidc.netAlways Oidc.respCloseFail)).2 = some Oidc.DiscError.bodyCloseFailed := by
  refine ⟨rfl, rfl, ?_, rfl⟩
  decide

/-- C3 amended: GetOpenIDConnectConfiguration returns an error in exactly
five failure cases — request creation fails, the transport request fails,
non-200 status, undecodable body, or the response-body close fails.
Equivalently, it succeeds exactly when request creation and transport
succeed, the status is 200, the body decodes, and the close succeeds. -/
theorem C3_amended_five_failure_cases :
    ∀ (ctx : Oidc.Context) (client : Option Oidc.HTTPClient) (env : Oidc.FetchEnv),
      (Oidc.GetOpenIDConnectConfiguration ctx client env).2 = none ↔
        (env.newRequestOk = true ∧
         ∃ resp : Oidc.HTTPResponse,
           Oidc.clientDo ctx env (Oidc.effectiveClient client) = Oidc.DoOutcome.success resp ∧
           resp.statusCode = 200 ∧ resp.body ≠ none ∧ resp.closeOk = true) := by
  intro ctx client env
  simp only [Oidc.GetOpenIDConnectConfiguration]
  cases hn : env.newRequestOk with
  | false => simp [hn]
  | true =>
    simp only [hn, Bool.true_eq_false, if_false]
    cases hd : Oidc.clientDo ctx env (Oidc.effectiveClient client) with
    | failure => simp
    | success resp =>
      rcases resp with ⟨code, body, closeOk⟩
      cases closeOk <;> cases body <;> by_cases hc : code = 200 <;>
        simp_all [Oidc.applyDeferredClose]

/-- Witness for C3: the success side of the amended equivalence at a
concrete environment. -/
theorem C3_witness :
    (Oidc.GetOpenIDConnectConfiguration Oidc.Context.live none
      (Oidc.netAlways Oidc.respGoodDoc)).2 = none :=
  (C3_amended_five_failure_cases Oidc.Context.live none (Oidc.netAlways Oidc.respGoodDoc)).mpr
    ⟨rfl, Oidc.respGoodDoc, rfl, rfl, by decide, rfl⟩

/-- Counterexample to C1 as stated: a discovery document missing every
required field is fetched successfully (no error is returned), and the
returned Configuration fails `Valid`. -/
theorem C1_counterexample_missing_fields_accepted :
    (Oidc.GetOpenIDConnectConfiguration Oidc.Context.live none
      (Oidc.netAlways Oidc.respEmptyDoc)).2 = none ∧
    ((Oidc.GetOpenIDConnectConfiguration Oidc.Context.live none
      (Oidc.netAlways Oidc.respEmptyDoc)).1).Valid =
      some "authproxy/oidc: issuer is empty" := by
  refine ⟨rfl, ?_⟩
  decide

/-- C1 amended: GetOpenIDConnectConfiguration performs no required-field
validation — whenever request creation and transport succeed, the status is
200, the body decodes and the close succeeds, it returns the decoded
document with defaults filled and a nil error, whatever the document's
required fields; checking `Valid` is left to the caller. -/
theorem C1_amended_no_validation_on_fetch :
    ∀ (ctx : Oidc.Context) (client : Option Oidc.HTTPClient) (env : Oidc.FetchEnv)
      (resp : Oidc.HTTPResponse) (cfg : Oidc.Configuration),
      env.newRequestOk = true →
      Oidc.clientDo ctx env (Oidc.effectiveClient client) = Oidc.DoOutcome.success resp →
      resp.statusCode = 200 → resp.body = some cfg → resp.closeOk = true →
      Oidc.GetOpenIDConnectConfiguration ctx client env = (cfg.FillDefaultValuesIfEmpty, none) := by
  intro ctx client env resp cfg hn hd hs hb hc
  simp [Oidc.GetOpenIDConnectConfiguration, hn, hd, hs, hb, hc, Oidc.applyDeferredClose]

/-- Witness for C1's amended statement: the all-empty document is returned
with only the defaults filled. -/
theorem C1_witness :
    Oidc.GetOpenIDConnectConfiguration Oidc.Context.live none (Oidc.netAlways Oidc.respEmptyDoc) =
      (Oidc.zeroConfiguration.FillDefaultValuesIfEmpty, none) :=
  C1_amended_no_validation_on_fetch Oidc.Context.live none (Oidc.netAlways Oidc.respEmptyDoc)
    Oidc.respEmptyDoc Oidc.zeroConfiguration rfl rfl rfl rfl rfl

/-- Counterexample to C2 as stated: the startup sequence of `main` contains
no discovery fetch at all, yet serves traffic. -/
theorem C2_counterexample_no_discovery_at_startup :
    AuthProxyMain.StartupStep.fetchDiscoveryConfiguration ∉ AuthProxyMain.mainSteps ∧
    AuthProxyMain.StartupStep.runHTTPServer ∈ AuthProxyMain.mainSteps := by
  decide

/-- C2 amended: `main` performs no provider discovery — its startup sequence
is exactly one step, serving HTTP traffic (the middleware and OIDC wiring is
commented out), so no discovery failure can stop it from serving routes. -/
theorem C2_amended_serves_without_discovery :
    AuthProxyMain.mainSteps = [AuthProxyMain.StartupStep.runHTTPServer] := rfl

/-- C7: the login-flow `state` is single-use — after a successful callback
consumed the session's `state`, every further callback on that session
(in particular a replay of the very same payload) gets the generic
state-mismatch error and leaves the session, hence its stored tokens,
unchanged. -/
theorem C7_state_single_use :
    ∀ (exchange : String → Option LoginFlow.TokenSet) (s s1 : LoginFlow.Session)
      (p : LoginFlow.CallbackParams) (target : String),
      LoginFlow.handleCallback exchange s p = (s1, LoginFlow.CallbackResult.redirect target) →
      ∀ p2 : LoginFlow.CallbackParams,
        LoginFlow.handleCallback exchange s1 p2 = (s1, LoginFlow.CallbackResult.genericError) := by
  intro exchange s s1 p target h p2
  have hstate : s1.state = none := by
    simp only [LoginFlow.handleCallback] at h
    split at h
    · simp at h
    · split at h
      · simp at h
      · split at h
        · simp at h
        · rw [Prod.mk.injEq] at h
          rw [← h.1]
  simp [LoginFlow.handleCallback, hstate, LoginFlow.stateMatches_none]

/-- Witness for C7: the concrete successful callback, then its replay
failing with the generic error. -/
theorem C7_witness :
    LoginFlow.handleCallback LoginFlow.exchangeOnlyCode1 LoginFlow.sessionAfter
      LoginFlow.paramsCorrect =
      (LoginFlow.sessionAfter, LoginFlow.CallbackResult.genericError) :=
  C7_state_single_use LoginFlow.exchangeOnlyCode1 LoginFlow.sessionAwaiting
    LoginFlow.sessionAfter LoginFlow.paramsCorrect "/foo/bar?x=1" (by decide)
    LoginFlow.paramsCorrect
